import Mathlib

/-!
Shallow embedding of `src/main.rs` of the `mhf-sample-launcher` repository.

The launcher is a two-screen (Login / Character) desktop client.  We embed
the data model (the serde structs), the transport-response handler
`handle_resposne` (sic, the source's spelling), the request operations
`request_login` / `request_register` / `request_create_character` /
`request_delete_character`, the launch-configuration builder `handle_start`,
and the button handlers of the two screens that mutate controller state
(`login_click`, `register_click`, `logout_click`).

Modelling conventions:
- `u32` fields become `Nat`, `i64` becomes `Int` (the code only copies and
  compares them; no arithmetic overflows anywhere).
- A network call's outcome (`Result<Response, ureq::Error>` together with the
  subsequent `into_json` decoding) is an explicit input of type
  `TransportResult T`.
- The `MezFesStall` enum and its `TryFrom<u32>` conversion live in the
  external `mhf_iel` crate, outside this repository; the conversion is taken
  as a parameter `stallOfCode : Nat → Option S` for an arbitrary stall type
  `S`, with `none` meaning the code is outside the closed variant set.
- The `.unwrap()` panic on an unknown stall code (process termination) is
  modelled by `handle_start` returning `none`.
-/

namespace Mhf

/-- Embeds `struct User { rights: u32, token: String }` (derives `Default`). -/
structure User where
  rights : Nat := 0
  token : String := ""
  deriving DecidableEq

/-- Embeds `struct Character` (derives `Default`): id, name, is_new, is_female,
weapon, hr, gr, last_login. -/
structure Character where
  id : Nat := 0
  name : String := ""
  is_new : Bool := false
  is_female : Bool := false
  weapon : Nat := 0
  hr : Nat := 0
  gr : Nat := 0
  last_login : Int := 0
  deriving DecidableEq

/-- Embeds `struct MezFes { id, start, end, solo_tickets, group_tickets,
stalls: Vec<u32> }`.  The source field `end` is a Lean keyword, so it is
named `end_` here. -/
structure MezFes where
  id : Nat
  start : Nat
  end_ : Nat
  solo_tickets : Nat
  group_tickets : Nat
  stalls : List Nat
  deriving DecidableEq

/-- Embeds `struct AuthData` (derives `Default`): the Session snapshot
returned by the server on login/register. -/
structure AuthData where
  current_ts : Nat := 0
  expiry_ts : Nat := 0
  entrance_count : Nat := 0
  notifications : List String := []
  user : User := {}
  characters : List Character := []
  mez_fes : Option MezFes := none
  deriving DecidableEq

/-- Embeds `struct Empty {}`, the success body of a delete request. -/
structure Empty where
  deriving DecidableEq

/-- Embeds `enum Host { LocalHost, Custom }` (default `LocalHost`). -/
inductive Host where
  | LocalHost
  | Custom
  deriving DecidableEq

/-- Embeds `Host::label`. -/
def Host.label : Host → String
  | Host.LocalHost => "Local Server"
  | Host.Custom => "Custom"

/-- Embeds `enum MhfState { Login, Character }` (default `Login`). -/
inductive MhfState where
  | Login
  | Character
  deriving DecidableEq

/-- Embeds `struct MhfLauncher` (derives `Default`): the single controller
instance holding UI state, credentials, the Session (`auth_data`) and the
last-error slot. -/
structure MhfLauncher where
  state : MhfState := MhfState.Login
  username : String := ""
  password : String := ""
  custom_host : String := ""
  auth_data : AuthData := {}
  error_message : Option String := none
  host : Host := Host.LocalHost
  deriving DecidableEq

/-- Embeds `MhfLauncher::get_host`. -/
def MhfLauncher.get_host (l : MhfLauncher) : String :=
  match l.host with
  | Host.LocalHost => "http://127.0.0.1:8080"
  | Host.Custom => l.custom_host

/-- Model of the transport outcome seen by `handle_resposne` for a target
type `T`: `ok d` is `Ok(r)` together with the result `d` of `r.into_json()`
(`Except.ok` decoded data, `Except.error` the decode-failure detail);
`status b` is `Err(ureq::Error::Status(_, r))` with `b` the response body
text (`r.into_string()`); `connErr` is any other `ureq::Error` (no response
at all). -/
inductive TransportResult (T : Type) where
  | ok (decoded : Except String T)
  | status (body : String)
  | connErr

/-- Embeds `MhfLauncher::handle_resposne` (the source's spelling).  Rust's
`text.is_empty()` is embedded as equality with `""`. -/
def handle_resposne {T : Type} (l : MhfLauncher) (response : TransportResult T) :
    MhfLauncher × Option T :=
  match response with
  | TransportResult.ok (Except.ok data) =>
    ({ l with error_message := none }, some data)
  | TransportResult.ok (Except.error e) =>
    ({ l with error_message := some ("Failed to decode JSON response: " ++ e) }, none)
  | TransportResult.status body =>
    ({ l with error_message := some (if body = "" then "Unable to connect to server, try again later" else body) }, none)
  | TransportResult.connErr =>
    ({ l with error_message := some "Failed to connect to server" }, none)

/-- Embeds `MhfLauncher::request_login`: on a decoded `AuthData` the Session
is replaced wholesale (`self.auth_data = auth_data`). -/
def request_login (l : MhfLauncher) (response : TransportResult AuthData) : MhfLauncher :=
  match handle_resposne l response with
  | (l', some auth_data) => { l' with auth_data := auth_data }
  | (l', none) => l'

/-- Embeds `MhfLauncher::request_register` (identical shape to login, against
the `/register` path). -/
def request_register (l : MhfLauncher) (response : TransportResult AuthData) : MhfLauncher :=
  match handle_resposne l response with
  | (l', some auth_data) => { l' with auth_data := auth_data }
  | (l', none) => l'

/-- Embeds `Notification { data, flags }` from the external `mhf_iel` crate,
as used at the single construction site in `handle_start`. -/
structure Notification where
  data : String
  flags : Nat
  deriving DecidableEq

/-- Embeds `MhfConfig` from the external `mhf_iel` crate, restricted to the
fields this repository sets; all other fields stay at `Default::default()`
and are unobservable here.  `S` is the stall type (`MezFesStall`). -/
structure MhfConfig (S : Type) where
  entrance_count : Nat := 0
  current_ts : Nat := 0
  expiry_ts : Nat := 0
  notifications : List Notification := []
  char_id : Nat := 0
  char_new : Bool := false
  char_name : String := ""
  char_hr : Nat := 0
  char_gr : Nat := 0
  char_ids : List Nat := []
  user_name : String := ""
  user_password : String := ""
  user_rights : Nat := 0
  user_token : String := ""
  mez_event_id : Nat := 0
  mez_start : Nat := 0
  mez_end : Nat := 0
  mez_solo_tickets : Nat := 0
  mez_group_tickets : Nat := 0
  mez_stalls : List S := []
  mhf_folder : Option String := none
  deriving DecidableEq

/-- Embeds `mez_fes.stalls.iter().map(|v| v.try_into().unwrap()).collect()`:
converts each code with `stallOfCode`; `none` models the `unwrap` panic on
the first code outside the known variant set. -/
def tryIntoStalls {S : Type} (stallOfCode : Nat → Option S) : List Nat → Option (List S)
  | [] => some []
  | v :: rest =>
    match stallOfCode v with
    | none => none
    | some s =>
      match tryIntoStalls stallOfCode rest with
      | none => none
      | some stalls => some (s :: stalls)

/-- Embeds the `MhfConfig { ... }` literal built at the start of
`MhfLauncher::handle_start`, before the `mez_fes` block. -/
def base_config {S : Type} (l : MhfLauncher) (character : Character) : MhfConfig S :=
  { entrance_count := l.auth_data.entrance_count
    current_ts := l.auth_data.current_ts
    expiry_ts := l.auth_data.expiry_ts
    notifications := List.map (fun n => { data := n, flags := 0 }) l.auth_data.notifications
    char_id := character.id
    char_new := character.is_new
    char_name := character.name
    char_hr := character.hr
    char_gr := character.gr
    char_ids := List.map (fun c => c.id) l.auth_data.characters
    user_name := l.username
    user_password := l.password
    user_rights := l.auth_data.user.rights
    user_token := l.auth_data.user.token }

/-- Embeds `MhfLauncher::handle_start`: builds the launch configuration from
the Session and the chosen character.  When `mez_fes` is present the five
event fields are copied and the stall codes converted; `none` models the
process-terminating `unwrap` panic on an unknown stall code.  The
`mhf_folder` assignment (which in the source happens after the `if let`
block, on every path that reaches it) is applied in both surviving
branches.  The final `mhf_iel::run(config).unwrap()` hands the process to
the external runtime and is outside the embedding; the built configuration
is the value returned. -/
def handle_start {S : Type} (stallOfCode : Nat → Option S)
    (l : MhfLauncher) (character : Character) : Option (MhfConfig S) :=
  match l.auth_data.mez_fes with
  | none =>
    some { (base_config l character : MhfConfig S) with
            mhf_folder := some "F:/Games/Monster Hunter Frontier Online" }
  | some mez_fes =>
    match tryIntoStalls stallOfCode mez_fes.stalls with
    | none => none
    | some stalls =>
      some { (base_config l character : MhfConfig S) with
              mez_event_id := mez_fes.id
              mez_start := mez_fes.start
              mez_end := mez_fes.end_
              mez_solo_tickets := mez_fes.solo_tickets
              mez_group_tickets := mez_fes.group_tickets
              mez_stalls := stalls
              mhf_folder := some "F:/Games/Monster Hunter Frontier Online" }

/-- Embeds `MhfLauncher::request_create_character`: on a decoded `Character`
the controller immediately calls `handle_start` with it (the second
component `some cfg?` records that the start flow ran, with its outcome);
the session's character list is not touched. -/
def request_create_character {S : Type} (stallOfCode : Nat → Option S)
    (l : MhfLauncher) (response : TransportResult Character) :
    MhfLauncher × Option (Option (MhfConfig S)) :=
  match handle_resposne l response with
  | (l', some character) => (l', some (handle_start stallOfCode l' character))
  | (l', none) => (l', none)

/-- Embeds `self.auth_data.characters.retain(|c| c.id != character.id)` from
`MhfLauncher::request_delete_character`: keep exactly the characters whose
id differs from the given one. -/
def removeCharacter (chars : List Character) (i : Nat) : List Character :=
  chars.filter (fun c => c.id != i)

/-- Embeds `MhfLauncher::request_delete_character`: on a decoded `Empty`
success body the character list is filtered by id; otherwise the launcher is
left as `handle_resposne` produced it (only the error slot changed). -/
def request_delete_character (l : MhfLauncher) (character : Character)
    (response : TransportResult Empty) : MhfLauncher :=
  match handle_resposne l response with
  | (l', some _) =>
    { l' with auth_data :=
        { l'.auth_data with characters := removeCharacter l'.auth_data.characters character.id } }
  | (l', none) => l'

/-- Embeds the `Login` button handler in `MhfLauncher::render_login`:
`self.request_login(); self.state = MhfState::Character;` — the state is set
to `Character` unconditionally, after the request returns. -/
def login_click (l : MhfLauncher) (response : TransportResult AuthData) : MhfLauncher :=
  { request_login l response with state := MhfState.Character }

/-- Embeds the `Register` button handler in `MhfLauncher::render_login`:
`self.request_register(); self.state = MhfState::Character;`. -/
def register_click (l : MhfLauncher) (response : TransportResult AuthData) : MhfLauncher :=
  { request_register l response with state := MhfState.Character }

/-- Embeds the `Logout` button handler in `MhfLauncher::render_characters`:
`self.error_message = None; self.state = MhfState::Login;`. -/
def logout_click (l : MhfLauncher) : MhfLauncher :=
  { l with error_message := none, state := MhfState.Login }

/-- Concrete character from the worked example of the spec:
`{id:1,name:"X",isFemale:false,weapon:0,hr:1,gr:0,lastLogin:0}`. -/
def ch0 : Character :=
  { id := 1, name := "X", is_new := false, is_female := false,
    weapon := 0, hr := 1, gr := 0, last_login := 0 }

/-- Concrete second character, used for the delete example. -/
def ch2 : Character :=
  { id := 2, name := "Y", is_new := true, is_female := true,
    weapon := 3, hr := 4, gr := 5, last_login := 6 }

/-- Concrete Session snapshot from the worked example of the spec:
`{currentTs:100, expiryTs:200, entranceCount:3, notifications:["hi"],
user:{rights:1,token:"T"}, characters:[ch0], mezFes:null}`. -/
def exampleAuth : AuthData :=
  { current_ts := 100, expiry_ts := 200, entrance_count := 3,
    notifications := ["hi"], user := { rights := 1, token := "T" },
    characters := [ch0], mez_fes := none }

/-- Concrete launcher in its initial (default) state with the example
credentials `username:"a", password:"b"`. -/
def l0 : MhfLauncher := { username := "a", password := "b" }

/-- Launcher after the example login: `request_login` on `l0` with a
successful response carrying `exampleAuth`. -/
def l3 : MhfLauncher := request_login l0 (TransportResult.ok (Except.ok exampleAuth))

/-- Concrete active event with a single stall code `5`. -/
def mez7 : MezFes :=
  { id := 9, start := 10, end_ := 20, solo_tickets := 1, group_tickets := 2, stalls := [5] }

/-- Launcher whose Session carries the active event `mez7`. -/
def l7 : MhfLauncher :=
  { l0 with auth_data := { exampleAuth with mez_fes := some mez7 } }

/-- Launcher with a two-character Session, for the delete example. -/
def l5 : MhfLauncher :=
  { l0 with auth_data := { exampleAuth with characters := [ch0, ch2] } }

/-- The configuration `handle_start` builds for `l3` and `ch0` (no event),
with the identity stall conversion on `Nat`. -/
def cfg3 : MhfConfig Nat :=
  { entrance_count := 3, current_ts := 100, expiry_ts := 200,
    notifications := [{ data := "hi", flags := 0 }],
    char_id := 1, char_new := false, char_name := "X", char_hr := 1, char_gr := 0,
    char_ids := [1], user_name := "a", user_password := "b",
    user_rights := 1, user_token := "T",
    mhf_folder := some "F:/Games/Monster Hunter Frontier Online" }

/-- The configuration `handle_start` builds for `l7` and `ch0` (event
present), with the identity stall conversion on `Nat`. -/
def cfg7 : MhfConfig Nat :=
  { entrance_count := 3, current_ts := 100, expiry_ts := 200,
    notifications := [{ data := "hi", flags := 0 }],
    char_id := 1, char_new := false, char_name := "X", char_hr := 1, char_gr := 0,
    char_ids := [1], user_name := "a", user_password := "b",
    user_rights := 1, user_token := "T",
    mez_event_id := 9, mez_start := 10, mez_end := 20,
    mez_solo_tickets := 1, mez_group_tickets := 2, mez_stalls := [5],
    mhf_folder := some "F:/Games/Monster Hunter Frontier Online" }

/-! Helper lemmas about the stall conversion. -/

/-- The stall conversion succeeds with a list of the same length. -/
theorem tryIntoStalls_length {S : Type} (f : Nat → Option S) :
    ∀ (codes : List Nat) (stalls : List S),
      tryIntoStalls f codes = some stalls → stalls.length = codes.length := by
  intro codes
  induction codes with
  | nil =>
    intro stalls h
    simp only [tryIntoStalls] at h
    injection h with h
    subst h
    rfl
  | cons v rest ih =>
    intro stalls h
    simp only [tryIntoStalls] at h
    cases hv : f v with
    | none => rw [hv] at h; exact Option.noConfusion h
    | some s =>
      rw [hv] at h
      cases hr : tryIntoStalls f rest with
      | none => rw [hr] at h; exact Option.noConfusion h
      | some tl =>
        rw [hr] at h
        injection h with h
        subst h
        simp [ih tl hr]

/-- The stall conversion aborts (models the `unwrap` panic) as soon as one
code is outside the known set. -/
theorem tryIntoStalls_eq_none {S : Type} (f : Nat → Option S) :
    ∀ (codes : List Nat) (c : Nat), c ∈ codes → f c = none →
      tryIntoStalls f codes = none := by
  intro codes
  induction codes with
  | nil => intro c hc; exact absurd hc (List.not_mem_nil c)
  | cons v rest ih =>
    intro c hc hfc
    simp only [tryIntoStalls]
    rcases List.mem_cons.mp hc with h | h
    · subst h; rw [hfc]
    · cases hv : f v with
      | none => rfl
      | some s => rw [ih c h hfc]

/-- Claim C4: `handle_resposne` classifies every transport outcome — decoded
body returns the data with the error slot cleared; decode failure stores
"Failed to decode JSON response: {detail}"; an HTTP-status error stores its
non-empty body verbatim, or the generic server-unavailable message when the
body is empty; a connection failure stores the generic failed-to-connect
message.  The first conjunct states the frame condition: the error slot is
the only launcher field `handle_resposne` ever changes. -/
theorem handle_resposne_classification (T : Type) (l : MhfLauncher)
    (resp : TransportResult T) :
    ((handle_resposne l resp).1
        = { l with error_message := (handle_resposne l resp).1.error_message })
    ∧ (∀ d, resp = TransportResult.ok (Except.ok d) →
        handle_resposne l resp = ({ l with error_message := none }, some d))
    ∧ (∀ e, resp = TransportResult.ok (Except.error e) →
        handle_resposne l resp
          = ({ l with error_message := some ("Failed to decode JSON response: " ++ e) }, none))
    ∧ (∀ b, b ≠ "" → resp = TransportResult.status b →
        handle_resposne l resp = ({ l with error_message := some b }, none))
    ∧ (resp = TransportResult.status "" →
        handle_resposne l resp
          = ({ l with error_message := some "Unable to connect to server, try again later" }, none))
    ∧ (resp = TransportResult.connErr →
        handle_resposne l resp
          = ({ l with error_message := some "Failed to connect to server" }, none)) := by
  refine ⟨?_, ?_, ?_, ?_, ?_, ?_⟩
  · cases resp with
    | ok d =>
      cases d with
      | ok data => rfl
      | error e => rfl
    | status b => rfl
    | connErr => rfl
  · intro d hd; subst hd; rfl
  · intro e he; subst he; rfl
  · intro b hb hresp
    subst hresp
    simp only [handle_resposne, if_neg hb]
  · intro hresp; subst hresp; rfl
  · intro hresp; subst hresp; rfl

/-- Witness for C4 at a concrete input: a connection-level failure on the
default launcher stores the generic failed-to-connect message. -/
theorem handle_resposne_classification_witness :
    handle_resposne l0 (TransportResult.connErr : TransportResult AuthData)
      = ({ l0 with error_message := some "Failed to connect to server" }, none) :=
  (handle_resposne_classification AuthData l0 TransportResult.connErr).2.2.2.2.2 rfl

/-- Claim C6: a successful login or register replaces the Session wholesale —
the whole launcher equals the prior launcher with `auth_data` swapped for the
decoded snapshot (and the error slot cleared); in particular the new Session
is exactly the server's snapshot, with no field of the prior Session merged
in. -/
theorem login_replaces_session (l : MhfLauncher) (auth : AuthData) :
    request_login l (TransportResult.ok (Except.ok auth))
        = { l with auth_data := auth, error_message := none }
    ∧ request_register l (TransportResult.ok (Except.ok auth))
        = { l with auth_data := auth, error_message := none }
    ∧ (request_login l (TransportResult.ok (Except.ok auth))).auth_data = auth
    ∧ (request_register l (TransportResult.ok (Except.ok auth))).auth_data = auth :=
  ⟨rfl, rfl, rfl, rfl⟩

/-- Claim C8: `logout_click` clears the stored error message and returns to
the Login state, and changes nothing else — in particular the whole Session
(`auth_data`, hence characters, user token, rights, notifications,
timestamps and event) is left untouched. -/
theorem logout_spec (l : MhfLauncher) :
    logout_click l = { l with error_message := none, state := MhfState.Login }
    ∧ (logout_click l).auth_data = l.auth_data
    ∧ (logout_click l).error_message = none
    ∧ (logout_click l).state = MhfState.Login
    ∧ (logout_click l).username = l.username
    ∧ (logout_click l).password = l.password :=
  ⟨rfl, rfl, rfl, rfl, rfl, rfl⟩

/-- Counterexample to claim C1 as stated: starting from the default launcher
(which is in the Login state), a login click whose transport call fails with
a connection error does NOT stay in the Login state — the handler sets the
state to Character unconditionally. -/
theorem login_failure_not_login_cex :
    l0.state = MhfState.Login
    ∧ (login_click l0 TransportResult.connErr).error_message
        = some "Failed to connect to server"
    ∧ (login_click l0 TransportResult.connErr).state ≠ MhfState.Login := by
  refine ⟨rfl, rfl, ?_⟩
  intro h
  exact MhfState.noConfusion h

/-- Claim C1 as amended: every login or register click transitions the
controller to the Character state regardless of outcome; on success the
Session is replaced and the error cleared; on failure the Session is
unchanged and the error message is retained (set). -/
theorem login_register_transition (l : MhfLauncher) (resp : TransportResult AuthData) :
    (login_click l resp).state = MhfState.Character
    ∧ (register_click l resp).state = MhfState.Character
    ∧ (∀ auth, resp = TransportResult.ok (Except.ok auth) →
        (login_click l resp).auth_data = auth
        ∧ (login_click l resp).error_message = none)
    ∧ ((∀ auth, resp ≠ TransportResult.ok (Except.ok auth)) →
        (login_click l resp).auth_data = l.auth_data
        ∧ ∃ msg, (login_click l resp).error_message = some msg) := by
  refine ⟨rfl, rfl, ?_, ?_⟩
  · intro auth h; subst h; exact ⟨rfl, rfl⟩
  · intro hfail
    cases resp with
    | ok d =>
      cases d with
      | ok auth => exact absurd rfl (hfail auth)
      | error e => exact ⟨rfl, _, rfl⟩
    | status b => exact ⟨rfl, _, rfl⟩
    | connErr => exact ⟨rfl, _, rfl⟩

/-- Witness for the amended C1 at a concrete input: a failed (connection
error) login click on the default launcher keeps the Session and sets some
error message. -/
theorem login_register_transition_witness :
    (login_click l0 TransportResult.connErr).auth_data = l0.auth_data
    ∧ ∃ msg, (login_click l0 TransportResult.connErr).error_message = some msg :=
  (login_register_transition l0 TransportResult.connErr).2.2.2
    (fun _ h => TransportResult.noConfusion h)

/-- Counterexample to claim C2 as stated: a successful create on the default
launcher (whose Session has no characters) leaves `Session.characters`
empty — the newly created character `ch2` is NOT appended — even though the
operation succeeded and the start flow ran (second component is `some`). -/
theorem create_character_no_append_cex :
    (request_create_character (fun c => (some c : Option Nat)) l0
        (TransportResult.ok (Except.ok ch2))).1.auth_data.characters = []
    ∧ ch2 ∉ (request_create_character (fun c => (some c : Option Nat)) l0
        (TransportResult.ok (Except.ok ch2))).1.auth_data.characters
    ∧ (request_create_character (fun c => (some c : Option Nat)) l0
        (TransportResult.ok (Except.ok ch2))).2.isSome = true := by
  refine ⟨rfl, ?_, rfl⟩
  intro h
  exact absurd h (List.not_mem_nil ch2)

/-- Claim C2 as amended: on a successful create the controller immediately
proceeds to the start flow for the server-returned character, but the
character is NOT appended to `Session.characters` — the Session is left
unchanged by the create operation (on every outcome). -/
theorem create_character_start_flow (S : Type) (sc : Nat → Option S)
    (l : MhfLauncher) (ch : Character) (resp : TransportResult Character) :
    (request_create_character sc l resp).1.auth_data = l.auth_data
    ∧ (resp = TransportResult.ok (Except.ok ch) →
        (request_create_character sc l resp).2
          = some (handle_start sc { l with error_message := none } ch)) := by
  constructor
  · cases resp with
    | ok d =>
      cases d with
      | ok c => rfl
      | error e => rfl
    | status b => rfl
    | connErr => rfl
  · intro h; subst h; rfl

/-- Witness for the amended C2 at a concrete input: the example login
launcher, a successful create returning `ch0`. -/
theorem create_character_start_flow_witness :
    (request_create_character (fun c => (some c : Option Nat)) l0
        (TransportResult.ok (Except.ok ch0))).1.auth_data = l0.auth_data
    ∧ (request_create_character (fun c => (some c : Option Nat)) l0
        (TransportResult.ok (Except.ok ch0))).2
      = some (handle_start (fun c => (some c : Option Nat))
          { l0 with error_message := none } ch0) :=
  ⟨(create_character_start_flow Nat (fun c => some c) l0 ch0
      (TransportResult.ok (Except.ok ch0))).1,
   (create_character_start_flow Nat (fun c => some c) l0 ch0
      (TransportResult.ok (Except.ok ch0))).2 rfl⟩

/-- Claim C10: `removeCharacter` (the `retain` in
`request_delete_character`) removes every entry whose id equals the given
id, characterised by membership; it is idempotent; and when no entry has
that id the list is unchanged. -/
theorem remove_character_algebra (chars : List Character) (i : Nat) :
    (∀ c ∈ removeCharacter chars i, c.id ≠ i)
    ∧ (∀ c, c ∈ removeCharacter chars i ↔ c ∈ chars ∧ c.id ≠ i)
    ∧ removeCharacter (removeCharacter chars i) i = removeCharacter chars i
    ∧ ((∀ c ∈ chars, c.id ≠ i) → removeCharacter chars i = chars) := by
  have hmem : ∀ c, c ∈ removeCharacter chars i ↔ c ∈ chars ∧ c.id ≠ i := by
    intro c
    simp [removeCharacter, List.mem_filter, bne_iff_ne]
  refine ⟨fun c hc => ((hmem c).mp hc).2, hmem, ?_, ?_⟩
  · have hall : ∀ c ∈ removeCharacter chars i, (c.id != i) = true := by
      intro c hc
      simpa [bne_iff_ne] using ((hmem c).mp hc).2
    calc removeCharacter (removeCharacter chars i) i
        = List.filter (fun c => c.id != i) (removeCharacter chars i) := rfl
      _ = removeCharacter chars i := List.filter_eq_self.mpr hall
  · intro hall
    have hall' : ∀ c ∈ chars, (c.id != i) = true := by
      intro c hc
      simpa [bne_iff_ne] using hall c hc
    exact List.filter_eq_self.mpr hall'

/-- Witness for C10 at a concrete input: removing an absent id from a
one-character list leaves it unchanged. -/
theorem remove_character_algebra_witness : removeCharacter [ch0] 2 = [ch0] :=
  (remove_character_algebra [ch0] 2).2.2.2 (by decide)

/-- Claim C5: on a successful delete the Session's character list becomes
exactly the filter removing the requested id (membership characterised, a
sublist of the original so relative order is preserved, and unchanged when
the id was not present); on any failing outcome the whole Session is left
unchanged. -/
theorem delete_character_spec (l : MhfLauncher) (ch : Character)
    (resp : TransportResult Empty) :
    (∀ e : Empty, resp = TransportResult.ok (Except.ok e) →
        (request_delete_character l ch resp).auth_data.characters
            = removeCharacter l.auth_data.characters ch.id
        ∧ List.Sublist (request_delete_character l ch resp).auth_data.characters
            l.auth_data.characters
        ∧ (∀ c, c ∈ (request_delete_character l ch resp).auth_data.characters
              ↔ c ∈ l.auth_data.characters ∧ c.id ≠ ch.id)
        ∧ ((∀ c ∈ l.auth_data.characters, c.id ≠ ch.id) →
            (request_delete_character l ch resp).auth_data.characters
                = l.auth_data.characters))
    ∧ ((∀ e : Empty, resp ≠ TransportResult.ok (Except.ok e)) →
        (request_delete_character l ch resp).auth_data = l.auth_data) := by
  constructor
  · intro e h
    subst h
    have hchars : (request_delete_character l ch
          (TransportResult.ok (Except.ok e))).auth_data.characters
        = removeCharacter l.auth_data.characters ch.id := rfl
    refine ⟨hchars, ?_, ?_, ?_⟩
    · rw [hchars]; exact List.filter_sublist l.auth_data.characters
    · intro c
      rw [hchars]
      simp [removeCharacter, List.mem_filter, bne_iff_ne]
    · intro hall
      rw [hchars]
      have hall' : ∀ c ∈ l.auth_data.characters, (c.id != ch.id) = true := by
        intro c hc
        simpa [bne_iff_ne] using hall c hc
      exact List.filter_eq_self.mpr hall'
  · intro hfail
    cases resp with
    | ok d =>
      cases d with
      | ok e => exact absurd rfl (hfail e)
      | error e => rfl
    | status b => rfl
    | connErr => rfl

/-- Witness for C5 at a concrete input, the worked delete example of the
spec: deleting id 1 from the two-character Session leaves exactly the other
character. -/
theorem delete_character_spec_witness :
    (request_delete_character l5 ch0
        (TransportResult.ok (Except.ok Empty.mk))).auth_data.characters
      = removeCharacter l5.auth_data.characters ch0.id :=
  ((delete_character_spec l5 ch0 (TransportResult.ok (Except.ok Empty.mk))).1
    Empty.mk rfl).1

/-- Claim C7: when the Session carries an active event one of whose stall
codes is outside the known variant set (the conversion returns `none`),
`handle_start` is fatal — it returns `none`, the model of the
process-terminating `unwrap` panic; no configuration is produced and no UI
error slot is written (the launcher is not an output of `handle_start` at
all). -/
theorem unknown_stall_fatal (S : Type) (stallOfCode : Nat → Option S)
    (l : MhfLauncher) (character : Character) (mez : MezFes)
    (hmez : l.auth_data.mez_fes = some mez)
    (code : Nat) (hcode : code ∈ mez.stalls) (hunknown : stallOfCode code = none) :
    handle_start stallOfCode l character = none := by
  simp only [handle_start, hmez]
  rw [tryIntoStalls_eq_none stallOfCode mez.stalls code hcode hunknown]

/-- Witness for C7 at a concrete input: a conversion that knows no codes is
fatal on the event-carrying launcher `l7`. -/
theorem unknown_stall_fatal_witness :
    handle_start (fun _ => (none : Option Nat)) l7 ch0 = none :=
  unknown_stall_fatal Nat (fun _ => none) l7 ch0 mez7 rfl 5 (by decide) rfl

/-- Claim C3: the `char_ids` field of every launch configuration
`handle_start` produces is the snapshot of the ids of `Session.characters`
at assembly time, in order; and in the worked example of the spec the login
yields a Session with the single character id 1 and no event, and the start
flow for that character yields a configuration with `char_ids = [1]`,
`user_token = "T"` and the event id absent (at its default). -/
theorem char_ids_snapshot :
    (∀ (S : Type) (sc : Nat → Option S) (l : MhfLauncher) (ch : Character)
        (cfg : MhfConfig S), handle_start sc l ch = some cfg →
        cfg.char_ids = List.map (fun c => c.id) l.auth_data.characters)
    ∧ List.map (fun c => c.id) l3.auth_data.characters = [1]
    ∧ l3.auth_data.mez_fes = none
    ∧ handle_start (fun c => (some c : Option Nat)) l3 ch0 = some cfg3
    ∧ cfg3.char_ids = [1]
    ∧ cfg3.user_token = "T"
    ∧ cfg3.mez_event_id = 0
    ∧ cfg3.mez_stalls = [] := by
  refine ⟨?_, rfl, rfl, rfl, rfl, rfl, rfl, rfl⟩
  intro S sc l ch cfg h
  cases hm : l.auth_data.mez_fes with
  | none =>
    simp only [handle_start, hm] at h
    injection h with h
    subst h
    rfl
  | some mez =>
    simp only [handle_start, hm] at h
    cases ht : tryIntoStalls sc mez.stalls with
    | none => rw [ht] at h; exact Option.noConfusion h
    | some stalls =>
      rw [ht] at h
      injection h with h
      subst h
      rfl

/-- Witness for C3's quantified part at a concrete input: the example
configuration's char-ids equal the Session's id snapshot. -/
theorem char_ids_snapshot_witness :
    cfg3.char_ids = List.map (fun c => c.id) l3.auth_data.characters :=
  char_ids_snapshot.1 Nat (fun c => some c) l3 ch0 cfg3 rfl

/-- Claim C9: every launch configuration `handle_start` produces copies the
entrance count, current and expiry timestamps, the notifications each paired
with flag 0, the chosen character's id, new-flag, name, hunter rank and
guild rank, the username, password, user rights and user token; with no
active event all five event fields and the stall list stay at their
defaults; with an active event the five event fields are copied and the
translated stall list has the same length as the source stall-code list. -/
theorem launch_config_fields (S : Type) (sc : Nat → Option S) (l : MhfLauncher)
    (ch : Character) (cfg : MhfConfig S) (h : handle_start sc l ch = some cfg) :
    cfg.entrance_count = l.auth_data.entrance_count
    ∧ cfg.current_ts = l.auth_data.current_ts
    ∧ cfg.expiry_ts = l.auth_data.expiry_ts
    ∧ cfg.notifications
        = List.map (fun n => { data := n, flags := 0 }) l.auth_data.notifications
    ∧ cfg.char_id = ch.id
    ∧ cfg.char_new = ch.is_new
    ∧ cfg.char_name = ch.name
    ∧ cfg.char_hr = ch.hr
    ∧ cfg.char_gr = ch.gr
    ∧ cfg.user_name = l.username
    ∧ cfg.user_password = l.password
    ∧ cfg.user_rights = l.auth_data.user.rights
    ∧ cfg.user_token = l.auth_data.user.token
    ∧ (l.auth_data.mez_fes = none →
        cfg.mez_event_id = 0 ∧ cfg.mez_start = 0 ∧ cfg.mez_end = 0
        ∧ cfg.mez_solo_tickets = 0 ∧ cfg.mez_group_tickets = 0
        ∧ cfg.mez_stalls = [])
    ∧ (∀ mez, l.auth_data.mez_fes = some mez →
        cfg.mez_event_id = mez.id ∧ cfg.mez_start = mez.start
        ∧ cfg.mez_end = mez.end_
        ∧ cfg.mez_solo_tickets = mez.solo_tickets
        ∧ cfg.mez_group_tickets = mez.group_tickets
        ∧ cfg.mez_stalls.length = mez.stalls.length) := by
  cases hm : l.auth_data.mez_fes with
  | none =>
    simp only [handle_start, hm] at h
    injection h with h
    subst h
    refine ⟨rfl, rfl, rfl, rfl, rfl, rfl, rfl, rfl, rfl, rfl, rfl, rfl, rfl,
      fun _ => ⟨rfl, rfl, rfl, rfl, rfl, rfl⟩, ?_⟩
    intro mez hmez
    exact Option.noConfusion hmez
  | some mez =>
    simp only [handle_start, hm] at h
    cases ht : tryIntoStalls sc mez.stalls with
    | none => rw [ht] at h; exact Option.noConfusion h
    | some stalls =>
      rw [ht] at h
      injection h with h
      subst h
      refine ⟨rfl, rfl, rfl, rfl, rfl, rfl, rfl, rfl, rfl, rfl, rfl, rfl, rfl, ?_, ?_⟩
      · intro hnone
        exact Option.noConfusion hnone
      · intro mez' hmez'
        injection hmez' with e
        subst e
        exact ⟨rfl, rfl, rfl, rfl, rfl, tryIntoStalls_length sc mez.stalls stalls ht⟩

/-- Witness for C9 at a concrete input exercising the event branch: for the
event-carrying launcher `l7`, the translated stall list of `cfg7` has the
same length as `mez7.stalls`. -/
theorem launch_config_fields_witness :
    cfg7.mez_stalls.length = mez7.stalls.length :=
  ((launch_config_fields Nat (fun c => some c) l7 ch0 cfg7
      rfl).2.2.2.2.2.2.2.2.2.2.2.2.2.2 mez7 rfl).2.2.2.2.2

end Mhf
